import Mathlib

/-!
Verification of the ecosystem dynamics engine of `rat_simulation.py`
(RapaNuiRats repository).

The engine is a coupled nonlinear ODE model over four real-valued state
components (rats, mature palms, young palms, mean mature-palm age), with
time-dependent forcing (logistic human population, sinusoidal seasonal
carrying capacity), piecewise mortality/harvest/clearing rules, and a
boolean anthropogenic-disturbance flag.  All definitions below are direct
translations of the Python source (`RapaNuiEcosystem` and its methods);
line numbers in comments refer to `src/python/rat_simulation.py`.
-/

open Real Set

/-- Parameter set of the engine: the attributes set in
`RapaNuiEcosystem.__init__` (lines 24-65). -/
structure RapaNuiEcosystem where
  rat_intrinsic_growth : ℝ
  rat_natural_mortality : ℝ
  rat_base_carrying_capacity_per_tree : ℝ
  rat_peak_carrying_capacity_per_tree : ℝ
  nut_season_duration : ℝ
  rat_minimum_viable_population : ℝ
  palm_maturation_time : ℝ
  palm_max_lifespan : ℝ
  palm_natural_mortality_young : ℝ
  palm_natural_mortality_mature : ℝ
  palm_senescence_age : ℝ
  palm_max_reproduction : ℝ
  seed_predation_efficiency : ℝ
  palm_refugia_effect : ℝ
  initial_humans : ℝ
  human_carrying_capacity : ℝ
  human_intrinsic_growth : ℝ
  clearing_per_person_per_year : ℝ
  agricultural_intensification : ℝ
  clearing_efficiency_decline : ℝ
  enable_human_clearing : Bool
  rat_harvest_rate : ℝ
  initial_rats : ℝ
  initial_mature_palms : ℝ
  initial_young_palms : ℝ
  initial_mature_age : ℝ

/-- The default parameter values assigned by `__init__` (lines 24-65).
The constructor takes no arguments, so this is the only configuration it
can ever produce. -/
def defaultEcosystem : RapaNuiEcosystem where
  rat_intrinsic_growth := 2.5
  rat_natural_mortality := 1.0
  rat_base_carrying_capacity_per_tree := 0.5
  rat_peak_carrying_capacity_per_tree := 4.0
  nut_season_duration := 0.25
  rat_minimum_viable_population := 50
  palm_maturation_time := 70
  palm_max_lifespan := 500
  palm_natural_mortality_young := 0.01
  palm_natural_mortality_mature := 0.005
  palm_senescence_age := 400
  palm_max_reproduction := 0.025
  seed_predation_efficiency := 0.95
  palm_refugia_effect := 0.0001
  initial_humans := 20
  human_carrying_capacity := 3000
  human_intrinsic_growth := 0.025
  clearing_per_person_per_year := 5.0
  agricultural_intensification := 1.003
  clearing_efficiency_decline := 0.9995
  enable_human_clearing := true
  rat_harvest_rate := 0.25
  initial_rats := 2
  initial_mature_palms := 9000000
  initial_young_palms := 6000000
  initial_mature_age := 150

/-- The default configuration with the disturbance flag set to `b`: the two
engine states under which `run_comparison_simulation` executes its two
scenario runs (lines 591 and 602 mutate `enable_human_clearing`). -/
def scenarioEcosystem (b : Bool) : RapaNuiEcosystem :=
  { defaultEcosystem with enable_human_clearing := b }

/-- State vector `[rats, mature_palms, young_palms, mature_palm_avg_age]`
(line 101). -/
structure EcoState where
  rats : ℝ
  mature_palms : ℝ
  young_palms : ℝ
  mature_avg_age : ℝ

/-- Line 103: `np.maximum(state, 0)` — componentwise clamp to non-negative
before any rate formula is evaluated. -/
def clampState (s : EcoState) : EcoState :=
  ⟨max s.rats 0, max s.mature_palms 0, max s.young_palms 0, max s.mature_avg_age 0⟩

/-- `human_population(t)` (lines 67-78): logistic growth
`K / (1 + ((K-P0)/P0) * exp(-r*t))`. -/
noncomputable def human_population (c : RapaNuiEcosystem) (t : ℝ) : ℝ :=
  c.human_carrying_capacity /
    (1 + ((c.human_carrying_capacity - c.initial_humans) / c.initial_humans) *
      Real.exp (-c.human_intrinsic_growth * t))

/-- Line 86: `0.5 * (1 + np.sin(2*pi*t - pi/2))`, the seasonal factor in
`[0, 1]`. -/
noncomputable def seasonal_factor (t : ℝ) : ℝ :=
  0.5 * (1 + Real.sin (2 * Real.pi * t - Real.pi / 2))

/-- `seasonal_rat_carrying_capacity(t, mature_palms)` (lines 80-95):
per-tree capacity interpolated between base and peak by the seasonal
factor, times the mature-palm count, floored at the minimum viable
population. -/
noncomputable def seasonal_rat_carrying_capacity (c : RapaNuiEcosystem) (t mature_palms : ℝ) : ℝ :=
  max c.rat_minimum_viable_population
    (mature_palms *
      (c.rat_base_carrying_capacity_per_tree +
        seasonal_factor t *
          (c.rat_peak_carrying_capacity_per_tree - c.rat_base_carrying_capacity_per_tree)))

/-- Age-dependent mature-palm mortality (lines 109-123): base rate below the
senescence age, linear senescence scaling past it, an extra multiplicative
penalty past 80% of the maximum lifespan, capped at 0.1. -/
noncomputable def mature_mortality_rate (c : RapaNuiEcosystem) (mature_avg_age : ℝ) : ℝ :=
  let m0 :=
    if mature_avg_age < c.palm_senescence_age then c.palm_natural_mortality_mature
    else c.palm_natural_mortality_mature *
      (1 + 2 * ((mature_avg_age - c.palm_senescence_age) / 100))
  let m1 :=
    if mature_avg_age > c.palm_max_lifespan * 0.8 then
      m0 * (1 + 5 * ((mature_avg_age - c.palm_max_lifespan * 0.8) / (c.palm_max_lifespan * 0.2)))
    else m0
  min m1 0.1

/-- Human rat harvesting (lines 128-133): when clearing is enabled,
`min(humans * rat_harvest_rate * min(1, t/150), rats * 0.4)`; otherwise 0.
`rats` is the clamped rat count. -/
noncomputable def rat_harvest (c : RapaNuiEcosystem) (t rats : ℝ) : ℝ :=
  if c.enable_human_clearing then
    min (human_population c t * c.rat_harvest_rate * min 1 (t / 150)) (rats * 0.4)
  else 0

/-- Rat population rate (lines 135-147): logistic growth minus natural
mortality minus harvest, with a halved intrinsic rate and attenuated
harvest (Allee regime) at or below the minimum viable population. -/
noncomputable def rat_growth (c : RapaNuiEcosystem) (t rats mature_palms : ℝ) : ℝ :=
  let cc := seasonal_rat_carrying_capacity c t mature_palms
  let harvest := rat_harvest c t rats
  if rats > c.rat_minimum_viable_population then
    rats * c.rat_intrinsic_growth * (1 - rats / cc) - rats * c.rat_natural_mortality - harvest
  else
    rats * c.rat_intrinsic_growth * 0.5 * (1 - rats / cc) - rats * c.rat_natural_mortality -
      harvest * (if c.enable_human_clearing then 0.1 else 0)

/-- Human clearing pressure (lines 149-157): when enabled,
`humans * clearing_per_person_per_year * intensification^t *
(efficiency_decline^t * total_palms / initial_total)`; otherwise 0. -/
noncomputable def clearing_rate (c : RapaNuiEcosystem) (t total_palms : ℝ) : ℝ :=
  if c.enable_human_clearing then
    human_population c t * c.clearing_per_person_per_year *
      c.agricultural_intensification ^ t *
      (c.clearing_efficiency_decline ^ t *
        (total_palms / (c.initial_mature_palms + c.initial_young_palms)))
  else 0

/-- Mature-palm clearing (lines 161-162): when enabled,
`min(clearing_rate * 0.75, accessible_mature * 0.18)`; otherwise 0. -/
noncomputable def mature_palm_clearing (c : RapaNuiEcosystem) (t total_palms mature_palms : ℝ) : ℝ :=
  if c.enable_human_clearing then
    min (clearing_rate c t total_palms * 0.75)
      (mature_palms * (1 - c.palm_refugia_effect) * 0.18)
  else 0

/-- Young-palm clearing (lines 198-199): when enabled,
`min(clearing_rate * 0.25, accessible_young * 0.12)`; otherwise 0. -/
noncomputable def young_palm_clearing (c : RapaNuiEcosystem) (t total_palms young_palms : ℝ) : ℝ :=
  if c.enable_human_clearing then
    min (clearing_rate c t total_palms * 0.25)
      (young_palms * (1 - c.palm_refugia_effect) * 0.12)
  else 0

/-- Mature-palm rate (lines 163-167): recruitment `young/maturation_time`
minus natural mortality and clearing loss. -/
noncomputable def mature_palm_change (c : RapaNuiEcosystem) (t mature_palms young_palms mature_avg_age : ℝ) : ℝ :=
  young_palms / c.palm_maturation_time -
    (mature_palms * mature_mortality_rate c mature_avg_age +
      mature_palm_clearing c t (mature_palms + young_palms) mature_palms)

/-- Mean-age rate (lines 170-178): `1 + (recruitment/mature)*(70 - age)`
when the mature population exceeds 100, else 0. -/
noncomputable def avg_age_change (c : RapaNuiEcosystem) (mature_palms young_palms mature_avg_age : ℝ) : ℝ :=
  if mature_palms > 100 then
    1 + (young_palms / c.palm_maturation_time / mature_palms) * (70 - mature_avg_age)
  else 0

/-- Line 190: saturating rat functional response `rats / (rats + 3000)`,
half-saturating at 3000 rats. -/
noncomputable def rat_density_effect (rats : ℝ) : ℝ :=
  rats / (rats + 3000)

/-- Line 191: seed predation pressure
`seed_predation_efficiency * rat_density_effect`. -/
noncomputable def predation_pressure (c : RapaNuiEcosystem) (rats : ℝ) : ℝ :=
  c.seed_predation_efficiency * rat_density_effect rats

/-- Line 185: reproduction from refugia palms (rate boosted by 1.1). -/
noncomputable def refugia_reproduction (c : RapaNuiEcosystem) (mature_palms : ℝ) : ℝ :=
  mature_palms * c.palm_refugia_effect * c.palm_max_reproduction * 1.1

/-- Line 186: reproduction from accessible palms. -/
noncomputable def accessible_reproduction (c : RapaNuiEcosystem) (mature_palms : ℝ) : ℝ :=
  mature_palms * (1 - c.palm_refugia_effect) * c.palm_max_reproduction

/-- Line 193: refugia seed survival — the predation pressure applied to
refugia reproduction is `predation_pressure * 0.4`. -/
noncomputable def refugia_survival (c : RapaNuiEcosystem) (mature_palms rats : ℝ) : ℝ :=
  refugia_reproduction c mature_palms * (1 - predation_pressure c rats * 0.4)

/-- Line 194: accessible seed survival under full predation pressure. -/
noncomputable def accessible_survival (c : RapaNuiEcosystem) (mature_palms rats : ℝ) : ℝ :=
  accessible_reproduction c mature_palms * (1 - predation_pressure c rats)

/-- Line 195: net reproduction after seed predation. -/
noncomputable def actual_reproduction (c : RapaNuiEcosystem) (mature_palms rats : ℝ) : ℝ :=
  refugia_survival c mature_palms rats + accessible_survival c mature_palms rats

/-- Young-palm rate (lines 197-203): net reproduction minus natural
mortality, maturation outflow, and clearing. -/
noncomputable def young_palm_change (c : RapaNuiEcosystem) (t rats mature_palms young_palms : ℝ) : ℝ :=
  actual_reproduction c mature_palms rats -
    (young_palms * c.palm_natural_mortality_young +
      young_palms / c.palm_maturation_time +
      young_palm_clearing c t (mature_palms + young_palms) young_palms)

/-- `ecosystem_dynamics(state, t)` (lines 97-205): clamp the state to
non-negative (line 103), then return the four instantaneous rates. -/
noncomputable def ecosystem_dynamics (c : RapaNuiEcosystem) (state : EcoState) (t : ℝ) : EcoState :=
  let s := clampState state
  ⟨rat_growth c t s.rats s.mature_palms,
    mature_palm_change c t s.mature_palms s.young_palms s.mature_avg_age,
    young_palm_change c t s.rats s.mature_palms s.young_palms,
    avg_age_change c s.mature_palms s.young_palms s.mature_avg_age⟩

/-- Modelled from the spec: `run_simulation` (lines 207-228) delegates the
integration itself to an external numerical solver
(`scipy.integrate.odeint`), which is not part of this repository.
Following the spec ("Delegates to a numerical ODE integrator ... to
produce the full trajectory"), a trajectory over the horizon `[0, T]` is
modelled as an exact solution of the dynamics: four coordinate functions
whose derivative at every time of the horizon is the corresponding
component of `ecosystem_dynamics`. -/
def IsTrajectory (c : RapaNuiEcosystem) (T : ℝ) (R M Y A : ℝ → ℝ) : Prop :=
  ∀ t ∈ Icc (0 : ℝ) T,
    HasDerivAt R ((ecosystem_dynamics c ⟨R t, M t, Y t, A t⟩ t).rats) t ∧
    HasDerivAt M ((ecosystem_dynamics c ⟨R t, M t, Y t, A t⟩ t).mature_palms) t ∧
    HasDerivAt Y ((ecosystem_dynamics c ⟨R t, M t, Y t, A t⟩ t).young_palms) t ∧
    HasDerivAt A ((ecosystem_dynamics c ⟨R t, M t, Y t, A t⟩ t).mature_avg_age) t

/-- The pre-integration phase of `run_simulation` (lines 207-216): build the
initial state and hand it to the integrator.  The source performs no
validation of the parameter fields anywhere on this path (nor does
`__init__`), so the setup succeeds for every configuration; it is embedded
as an `Except` to record that no configuration-time error path exists. -/
def run_simulation_setup (c : RapaNuiEcosystem) (years : ℝ) : Except String EcoState :=
  Except.ok ⟨c.initial_rats, c.initial_mature_palms, c.initial_young_palms, c.initial_mature_age⟩

/-- The engine states used by `run_comparison_simulation` (lines 580-617):
it mutates `self.enable_human_clearing` to `False` for the first run
(line 591) and to `True` for the second run (line 602) on the shared
engine instance, leaving the flag `True` afterwards.  The pair is (engine
state during run 1, engine state during run 2 = final engine state). -/
def run_comparison_engine_states (c : RapaNuiEcosystem) : RapaNuiEcosystem × RapaNuiEcosystem :=
  let c1 := { c with enable_human_clearing := false }
  let c2 := { c1 with enable_human_clearing := true }
  (c1, c2)

/-- A deliberately invalid configuration (negative rodent reproductive
rate), used to probe the absence of configuration-time validation. -/
def badEcosystem : RapaNuiEcosystem :=
  { defaultEcosystem with rat_intrinsic_growth := -1 }

/-! ## Theorems -/

/-- Claim C5: for every time `t` and every `mature_palms ≥ 0` (including 0),
the seasonal rat carrying capacity is at least the minimum-viable-population
floor, so the capacity used in the rodent logistic term is never below the
floor constant. -/
theorem seasonal_capacity_floor (c : RapaNuiEcosystem) (t mature_palms : ℝ)
    (hm : 0 ≤ mature_palms) :
    c.rat_minimum_viable_population ≤ seasonal_rat_carrying_capacity c t mature_palms :=
  le_max_left _ _

/-- Witness for C5 at the default configuration, `t = 0`, `mature_palms = 0`. -/
theorem seasonal_capacity_floor_witness :
    (50 : ℝ) ≤ seasonal_rat_carrying_capacity defaultEcosystem 0 0 := by
  have h := seasonal_capacity_floor defaultEcosystem 0 0 le_rfl
  simpa [defaultEcosystem] using h

/-- Claim C3: with the disturbance flag cleared, `ecosystem_dynamics`
computes zero clearing pressure (hence zero mature-palm and zero young-palm
clearing) and zero rodent harvest, for every state and time (and so for any
value of the human population). -/
theorem disturbance_off_zero_pressure (c : RapaNuiEcosystem)
    (h : c.enable_human_clearing = false)
    (t total_palms mature_palms young_palms rats : ℝ) :
    clearing_rate c t total_palms = 0 ∧
    mature_palm_clearing c t total_palms mature_palms = 0 ∧
    young_palm_clearing c t total_palms young_palms = 0 ∧
    rat_harvest c t rats = 0 := by
  refine ⟨?_, ?_, ?_, ?_⟩ <;>
    simp [clearing_rate, mature_palm_clearing, young_palm_clearing, rat_harvest, h]

/-- Witness for C3: the rats-only scenario configuration at concrete inputs. -/
theorem disturbance_off_zero_pressure_witness :
    clearing_rate (scenarioEcosystem false) 1 15000000 = 0 ∧
    mature_palm_clearing (scenarioEcosystem false) 1 15000000 9000000 = 0 ∧
    young_palm_clearing (scenarioEcosystem false) 1 15000000 6000000 = 0 ∧
    rat_harvest (scenarioEcosystem false) 1 2 = 0 :=
  disturbance_off_zero_pressure (scenarioEcosystem false) rfl 1 15000000 9000000 6000000 2

/-- Claim C10: with the disturbance flag set and a non-negative state, the
rodent-harvest term of `ecosystem_dynamics` equals
`min(humans * rat_harvest_rate * min(1, t/150), 0.4 * rats)`; hence it never
exceeds 40% of the rat population, vanishes at `t = 0`, and the time ramp
`min(1, t/150)` saturates at 1 for all `t ≥ 150`. -/
theorem rat_harvest_bound_and_ramp (c : RapaNuiEcosystem)
    (h : c.enable_human_clearing = true) (t rats : ℝ) (ht : 0 ≤ t) (hr : 0 ≤ rats) :
    rat_harvest c t rats =
      min (human_population c t * c.rat_harvest_rate * min 1 (t / 150)) (rats * 0.4) ∧
    rat_harvest c t rats ≤ 0.4 * rats ∧
    (t = 0 → rat_harvest c t rats = 0) ∧
    (150 ≤ t → min 1 (t / 150) = (1 : ℝ)) := by
  have hdef : rat_harvest c t rats =
      min (human_population c t * c.rat_harvest_rate * min 1 (t / 150)) (rats * 0.4) := by
    simp [rat_harvest, h]
  refine ⟨hdef, ?_, ?_, ?_⟩
  · rw [hdef]
    calc min (human_population c t * c.rat_harvest_rate * min 1 (t / 150)) (rats * 0.4) ≤
        rats * 0.4 := min_le_right _ _
      _ = 0.4 * rats := mul_comm _ _
  · intro h0
    subst h0
    rw [hdef]
    norm_num
    exact hr
  · intro h150
    refine min_eq_left ?_
    rw [le_div_iff (by norm_num : (0:ℝ) < 150)]
    linarith

/-- Witness for C10 at the disturbance-enabled default configuration. -/
theorem rat_harvest_bound_and_ramp_witness :
    rat_harvest (scenarioEcosystem true) 0 2 = 0 ∧
    rat_harvest (scenarioEcosystem true) 200 1000 ≤ 0.4 * 1000 ∧
    min 1 ((200 : ℝ) / 150) = 1 := by
  have h0 := rat_harvest_bound_and_ramp (scenarioEcosystem true) rfl 0 2
    le_rfl (by norm_num)
  have h200 := rat_harvest_bound_and_ramp (scenarioEcosystem true) rfl 200 1000
    (by norm_num) (by norm_num)
  exact ⟨h0.2.2.1 rfl, h200.2.1, h200.2.2.2 (by norm_num)⟩

/-- Claim C9 counterexample: invoking the comparison on an engine whose
disturbance flag is `false` leaves the flag `true` afterwards — the flag is
a mutable attribute of the shared engine, not immutable per-run
configuration, so the engine is not restored to its prior state. -/
theorem comparison_flag_not_restored :
    ((run_comparison_engine_states (scenarioEcosystem false)).2).enable_human_clearing ≠
      (scenarioEcosystem false).enable_human_clearing := by
  simp [run_comparison_engine_states, scenarioEcosystem]

/-- Claim C9 (amended): `run_comparison_simulation` flips the one shared
mutable flag on the engine: the first scenario runs with the flag `false`,
the second with the flag `true`, and after the comparison the flag is left
`true` regardless of its prior value (all other parameter fields are
unchanged), so the prior engine state is restored only when the flag was
already `true`. -/
theorem comparison_flag_is_mutable_shared_state (c : RapaNuiEcosystem) :
    (run_comparison_engine_states c).1 = { c with enable_human_clearing := false } ∧
    (run_comparison_engine_states c).2 = { c with enable_human_clearing := true } ∧
    ((run_comparison_engine_states c).2).enable_human_clearing = true ∧
    ((run_comparison_engine_states c).2).rat_intrinsic_growth = c.rat_intrinsic_growth ∧
    ((run_comparison_engine_states c).2).clearing_per_person_per_year =
      c.clearing_per_person_per_year ∧
    ((run_comparison_engine_states c).2).rat_harvest_rate = c.rat_harvest_rate :=
  ⟨rfl, rfl, rfl, rfl, rfl, rfl⟩

/-- Claim C8 counterexample: a configuration with a negative rodent
reproductive rate (invalid per the claim) is accepted unchecked — the
pre-integration setup of `run_simulation` succeeds and a run is started
with the invalid parameters; no validation error is ever raised. -/
theorem no_fail_fast_on_invalid_config :
    badEcosystem.rat_intrinsic_growth < 0 ∧
    run_simulation_setup badEcosystem 522 =
      Except.ok ⟨2, 9000000, 6000000, 150⟩ := by
  constructor
  · norm_num [badEcosystem, defaultEcosystem]
  · rfl

/-- Claim C8 (amended): no configuration-time validation exists.  The
parameterless constructor always produces the fixed default configuration,
`run_simulation` accepts every parameter configuration and begins
integration without any validity check, and the defaults themselves satisfy
the validity conditions the claim names (non-negative rates, positive
maturation time, nonzero carrying-capacity bounds). -/
theorem no_validation_and_defaults_valid :
    (∀ (c : RapaNuiEcosystem) (years : ℝ),
      run_simulation_setup c years =
        Except.ok ⟨c.initial_rats, c.initial_mature_palms,
          c.initial_young_palms, c.initial_mature_age⟩) ∧
    0 ≤ defaultEcosystem.rat_intrinsic_growth ∧
    0 ≤ defaultEcosystem.rat_natural_mortality ∧
    0 ≤ defaultEcosystem.palm_natural_mortality_young ∧
    0 ≤ defaultEcosystem.palm_natural_mortality_mature ∧
    0 ≤ defaultEcosystem.palm_max_reproduction ∧
    0 ≤ defaultEcosystem.rat_harvest_rate ∧
    0 ≤ defaultEcosystem.clearing_per_person_per_year ∧
    0 < defaultEcosystem.palm_maturation_time ∧
    0 < defaultEcosystem.rat_base_carrying_capacity_per_tree ∧
    0 < defaultEcosystem.rat_peak_carrying_capacity_per_tree ∧
    0 < defaultEcosystem.human_carrying_capacity := by
  refine ⟨fun c years => rfl, ?_⟩
  norm_num [defaultEcosystem]

/-- Claim C7 counterexample: at 3000 rats (half-saturation) the refugia
seed-survival factor computed by the code is `1 - 0.4 * p`, not the claimed
`1 - 0.6 * p`: the code gives refugia seeds a 60% discount on predation
pressure, not 40%. -/
theorem refugia_discount_claim_false :
    refugia_survival defaultEcosystem 1000000 3000 ≠
      refugia_reproduction defaultEcosystem 1000000 *
        (1 - 0.6 * predation_pressure defaultEcosystem 3000) := by
  simp only [refugia_survival, refugia_reproduction, predation_pressure,
    rat_density_effect, defaultEcosystem]
  norm_num

/-- Claim C7 (amended): for every non-negative rat count the predation
pressure equals `seed_predation_efficiency * rats/(rats + 3000)` — a
saturating function, non-decreasing in the rat count, bounded by the
efficiency ceiling, half-saturating at 3000 rats — and refugia seeds
receive a 60% discount on this pressure: the pressure applied to refugia
reproduction is `0.4` times the nominal pressure applied to accessible
reproduction. -/
theorem predation_saturating_and_refugia_discount (c : RapaNuiEcosystem)
    (heff : 0 ≤ c.seed_predation_efficiency) (mature_palms rats rats2 : ℝ)
    (hr : 0 ≤ rats) (hr2 : rats ≤ rats2) :
    predation_pressure c rats = c.seed_predation_efficiency * (rats / (rats + 3000)) ∧
    0 ≤ predation_pressure c rats ∧
    predation_pressure c rats ≤ c.seed_predation_efficiency ∧
    predation_pressure c rats ≤ predation_pressure c rats2 ∧
    predation_pressure c 3000 = c.seed_predation_efficiency / 2 ∧
    refugia_survival c mature_palms rats =
      refugia_reproduction c mature_palms * (1 - 0.4 * predation_pressure c rats) ∧
    accessible_survival c mature_palms rats =
      accessible_reproduction c mature_palms * (1 - predation_pressure c rats) := by
  have h3 : (0 : ℝ) < rats + 3000 := by linarith
  have h32 : (0 : ℝ) < rats2 + 3000 := by linarith
  refine ⟨rfl, ?_, ?_, ?_, ?_, ?_, rfl⟩
  · exact mul_nonneg heff (div_nonneg hr h3.le)
  · have hd1 : rats / (rats + 3000) ≤ 1 := by
      rw [div_le_one h3]; linarith
    calc predation_pressure c rats =
        c.seed_predation_efficiency * (rats / (rats + 3000)) := rfl
      _ ≤ c.seed_predation_efficiency * 1 :=
        mul_le_mul_of_nonneg_left hd1 heff
      _ = c.seed_predation_efficiency := mul_one _
  · have hd : rats / (rats + 3000) ≤ rats2 / (rats2 + 3000) := by
      rw [div_le_div_iff h3 h32]; nlinarith
    exact mul_le_mul_of_nonneg_left hd heff
  · simp only [predation_pressure, rat_density_effect]
    norm_num
    ring
  · simp only [refugia_survival]
    ring

/-- Witness for C7 (amended) at the default configuration. -/
theorem predation_saturating_and_refugia_discount_witness :
    predation_pressure defaultEcosystem 3000 =
      defaultEcosystem.seed_predation_efficiency / 2 ∧
    0 ≤ predation_pressure defaultEcosystem 0 := by
  have h := predation_saturating_and_refugia_discount defaultEcosystem
    (by norm_num [defaultEcosystem]) 1 0 1 le_rfl (by norm_num)
  exact ⟨h.2.2.2.2.1, h.2.1⟩

/-- Claim C6: for every valid configuration (`K > P0 > 0`, `r > 0`),
`human_population(0) = P0` exactly, `human_population(t) ∈ [P0, K]` for all
`t ≥ 0`, and `human_population` is strictly increasing. -/
theorem human_population_logistic (c : RapaNuiEcosystem)
    (hP0 : 0 < c.initial_humans)
    (hK : c.initial_humans < c.human_carrying_capacity)
    (hr : 0 < c.human_intrinsic_growth) :
    human_population c 0 = c.initial_humans ∧
    (∀ t : ℝ, 0 ≤ t →
      c.initial_humans ≤ human_population c t ∧
      human_population c t ≤ c.human_carrying_capacity) ∧
    (∀ t1 t2 : ℝ, 0 ≤ t1 → t1 < t2 →
      human_population c t1 < human_population c t2) := by
  set K := c.human_carrying_capacity with hKdef
  set P := c.initial_humans with hPdef
  set r := c.human_intrinsic_growth with hrdef
  have hKpos : 0 < K := lt_trans hP0 hK
  have hPne : P ≠ 0 := hP0.ne'
  have hq : 0 < (K - P) / P := div_pos (sub_pos.2 hK) hP0
  have hden : ∀ t : ℝ, 0 < 1 + (K - P) / P * Real.exp (-r * t) := fun t =>
    add_pos one_pos (mul_pos hq (Real.exp_pos _))
  have hsum : (1 : ℝ) + (K - P) / P = K / P := by
    field_simp
  have hKdiv : K / (K / P) = P := by
    rw [div_div_eq_mul_div, mul_comm, mul_div_assoc, div_self hKpos.ne', mul_one]
  refine ⟨?_, ?_, ?_⟩
  · show K / (1 + (K - P) / P * Real.exp (-r * 0)) = P
    rw [mul_zero, Real.exp_zero, mul_one, hsum, hKdiv]
  · intro t ht
    constructor
    · have h1 : Real.exp (-r * t) ≤ 1 := Real.exp_le_one_iff.2 (by nlinarith)
      have hle : (K - P) / P * Real.exp (-r * t) ≤ (K - P) / P * 1 :=
        mul_le_mul_of_nonneg_left h1 hq.le
      have hd2 : 1 + (K - P) / P * Real.exp (-r * t) ≤ K / P := by
        rw [← hsum]; linarith
      calc P = K / (K / P) := hKdiv.symm
        _ ≤ K / (1 + (K - P) / P * Real.exp (-r * t)) :=
            (div_le_div_left hKpos (div_pos hKpos hP0) (hden t)).2 hd2
    · have h1le : (1 : ℝ) ≤ 1 + (K - P) / P * Real.exp (-r * t) :=
        le_add_of_nonneg_right (mul_nonneg hq.le (Real.exp_pos _).le)
      exact div_le_self hKpos.le h1le
  · intro t1 t2 ht1 h12
    have hexp : Real.exp (-r * t2) < Real.exp (-r * t1) :=
      Real.exp_lt_exp.2 (by nlinarith)
    have hdlt : 1 + (K - P) / P * Real.exp (-r * t2) <
        1 + (K - P) / P * Real.exp (-r * t1) := by
      have := mul_lt_mul_of_pos_left hexp hq
      linarith
    exact (div_lt_div_left hKpos (hden t1) (hden t2)).2 hdlt

/-- Witness for C6 at the default configuration. -/
theorem human_population_logistic_witness :
    human_population defaultEcosystem 0 = defaultEcosystem.initial_humans ∧
    human_population defaultEcosystem 0 < human_population defaultEcosystem 1 := by
  have h := human_population_logistic defaultEcosystem
    (by norm_num [defaultEcosystem]) (by norm_num [defaultEcosystem])
    (by norm_num [defaultEcosystem])
  exact ⟨h.1, h.2.2 0 1 le_rfl (by norm_num)⟩

/-- Closed form of the age-dependent mortality at the default parameter
values: constant `0.005` up to age 400, the combined senescence and
lifespan penalty beyond it, capped at `0.1`. -/
lemma mature_mortality_rate_default_eval (b : Bool) (a : ℝ) :
    mature_mortality_rate (scenarioEcosystem b) a =
      min (if a ≤ 400 then (0.005 : ℝ)
        else 0.005 * (1 + 2 * ((a - 400) / 100)) * (1 + 5 * ((a - 400) / 100))) 0.1 := by
  simp only [mature_mortality_rate, scenarioEcosystem, defaultEcosystem]
  norm_num
  split_ifs <;>
    first
      | rfl
      | (exfalso; linarith)
      | (have ha : a = (400 : ℝ) := by linarith
         subst ha; norm_num)

/-- Claim C4: at the engine's (fixed) parameter values, the age-dependent
mature-palm mortality rate is non-decreasing over all non-negative ages and
never exceeds 0.1 (10%/year), even for arbitrarily large age input. -/
theorem mature_mortality_monotone_capped (b : Bool) (a1 a2 : ℝ)
    (h0 : 0 ≤ a1) (h12 : a1 ≤ a2) :
    mature_mortality_rate (scenarioEcosystem b) a1 ≤
      mature_mortality_rate (scenarioEcosystem b) a2 ∧
    ∀ age : ℝ, mature_mortality_rate (scenarioEcosystem b) age ≤ 0.1 := by
  constructor
  · rw [mature_mortality_rate_default_eval, mature_mortality_rate_default_eval]
    refine min_le_min ?_ le_rfl
    rcases le_or_lt a2 400 with h2 | h2
    · rw [if_pos (le_trans h12 h2), if_pos h2]
    · rcases le_or_lt a1 400 with h1 | h1
      · rw [if_pos h1, if_neg (not_le.2 h2)]
        have hu : 0 ≤ (a2 - 400) / 100 := by
          apply div_nonneg <;> linarith
        nlinarith [sq_nonneg ((a2 - 400) / 100)]
      · rw [if_neg (not_le.2 h1), if_neg (not_le.2 h2)]
        have hu1 : 0 ≤ (a1 - 400) / 100 := by
          apply div_nonneg <;> linarith
        have hu12 : (a1 - 400) / 100 ≤ (a2 - 400) / 100 := by
          apply div_le_div_of_nonneg_right ?_ ?_ <;> linarith
        nlinarith [mul_nonneg (sub_nonneg.2 hu12) (add_nonneg hu1 (le_trans hu1 hu12))]
  · intro age
    rw [mature_mortality_rate_default_eval]
    exact min_le_right _ _

/-- Witness for C4: monotonicity across the senescence threshold and the
cap at a very large age. -/
theorem mature_mortality_monotone_capped_witness :
    mature_mortality_rate (scenarioEcosystem true) 0 ≤
      mature_mortality_rate (scenarioEcosystem true) 450 ∧
    mature_mortality_rate (scenarioEcosystem true) 10000 ≤ 0.1 := by
  have h := mature_mortality_monotone_capped true 0 450 le_rfl (by norm_num)
  exact ⟨h.1, h.2 10000⟩

/-- The logistic human population is positive at every time under the
default demographic parameters (either scenario). -/
lemma human_population_pos (b : Bool) (t : ℝ) :
    0 < human_population (scenarioEcosystem b) t := by
  simp only [human_population, scenarioEcosystem, defaultEcosystem]
  positivity

/-- The clearing pressure is never negative when the standing tree stock is
non-negative (in either scenario, at any time). -/
lemma clearing_rate_nonneg (b : Bool) (t total : ℝ) (htot : 0 ≤ total) :
    0 ≤ clearing_rate (scenarioEcosystem b) t total := by
  unfold clearing_rate
  split_ifs with h
  · refine mul_nonneg (mul_nonneg (mul_nonneg (human_population_pos b t).le ?_) ?_)
      (mul_nonneg ?_ (div_nonneg htot ?_))
    · norm_num [scenarioEcosystem, defaultEcosystem]
    · exact Real.rpow_nonneg (by norm_num [scenarioEcosystem, defaultEcosystem]) t
    · exact Real.rpow_nonneg (by norm_num [scenarioEcosystem, defaultEcosystem]) t
    · norm_num [scenarioEcosystem, defaultEcosystem]
  · exact le_rfl

/-- With no rats present the harvest term vanishes (for `t ≥ 0`). -/
lemma rat_harvest_zero (b : Bool) (t : ℝ) (ht : 0 ≤ t) :
    rat_harvest (scenarioEcosystem b) t 0 = 0 := by
  unfold rat_harvest
  split_ifs with h
  · rw [zero_mul]
    refine min_eq_right ?_
    refine mul_nonneg (mul_nonneg (human_population_pos b t).le ?_) ?_
    · norm_num [scenarioEcosystem, defaultEcosystem]
    · exact le_min (by norm_num) (by positivity)
  · rfl

/-- With no rats present the rat rate vanishes (for `t ≥ 0`). -/
lemma rat_growth_at_zero (b : Bool) (t m : ℝ) (ht : 0 ≤ t) :
    rat_growth (scenarioEcosystem b) t 0 m = 0 := by
  have hnot : ¬ ((0 : ℝ) > (scenarioEcosystem b).rat_minimum_viable_population) := by
    norm_num [scenarioEcosystem, defaultEcosystem]
  simp only [rat_growth, rat_harvest_zero b t ht, if_neg hnot]
  ring

/-- With no mature palms the mature-palm clearing vanishes. -/
lemma mature_palm_clearing_zero (b : Bool) (t total : ℝ) (htot : 0 ≤ total) :
    mature_palm_clearing (scenarioEcosystem b) t total 0 = 0 := by
  unfold mature_palm_clearing
  split_ifs with h
  · rw [zero_mul, zero_mul]
    exact min_eq_right (mul_nonneg (clearing_rate_nonneg b t total htot) (by norm_num))
  · rfl

/-- With no young palms the young-palm clearing vanishes. -/
lemma young_palm_clearing_zero (b : Bool) (t total : ℝ) (htot : 0 ≤ total) :
    young_palm_clearing (scenarioEcosystem b) t total 0 = 0 := by
  unfold young_palm_clearing
  split_ifs with h
  · rw [zero_mul, zero_mul]
    exact min_eq_right (mul_nonneg (clearing_rate_nonneg b t total htot) (by norm_num))
  · rfl

/-- Net reproduction after predation is non-negative for non-negative
mature-palm and rat counts: the predation pressure stays within `[0, 0.95]`,
so both survival factors are non-negative. -/
lemma actual_reproduction_nonneg (b : Bool) (m r : ℝ) (hm : 0 ≤ m) (hr : 0 ≤ r) :
    0 ≤ actual_reproduction (scenarioEcosystem b) m r := by
  have h3 : (0 : ℝ) < r + 3000 := by linarith
  have hd0 : 0 ≤ r / (r + 3000) := div_nonneg hr h3.le
  have hd1 : r / (r + 3000) ≤ 1 := by rw [div_le_one h3]; linarith
  have heff : (scenarioEcosystem b).seed_predation_efficiency = 0.95 := rfl
  have hp0 : 0 ≤ predation_pressure (scenarioEcosystem b) r := by
    unfold predation_pressure rat_density_effect
    rw [heff]
    nlinarith
  have hp1 : predation_pressure (scenarioEcosystem b) r ≤ 0.95 := by
    unfold predation_pressure rat_density_effect
    rw [heff]
    nlinarith
  have hρ : (scenarioEcosystem b).palm_refugia_effect = 0.0001 := rfl
  have hrep : (scenarioEcosystem b).palm_max_reproduction = 0.025 := rfl
  unfold actual_reproduction refugia_survival accessible_survival
    refugia_reproduction accessible_reproduction
  rw [hρ, hrep]
  have f1 : (0 : ℝ) ≤ m * 0.0001 * 0.025 * 1.1 := by
    have := mul_nonneg hm (by norm_num : (0:ℝ) ≤ 0.0001)
    nlinarith
  have f2 : 0 ≤ 1 - predation_pressure (scenarioEcosystem b) r * 0.4 := by nlinarith
  have f3 : (0 : ℝ) ≤ m * (1 - 0.0001) * 0.025 := by nlinarith
  have f4 : 0 ≤ 1 - predation_pressure (scenarioEcosystem b) r := by linarith
  exact add_nonneg (mul_nonneg f1 f2) (mul_nonneg f3 f4)

/-- With no mature palms the mature-palm rate is the (non-negative)
recruitment inflow. -/
lemma mature_change_nonneg_at_zero (b : Bool) (t y a : ℝ) (hy : 0 ≤ y) :
    0 ≤ mature_palm_change (scenarioEcosystem b) t 0 y a := by
  unfold mature_palm_change
  rw [mature_palm_clearing_zero b t (0 + y) (by linarith)]
  simp only [zero_mul, zero_add, add_zero, sub_zero]
  exact div_nonneg hy (by norm_num [scenarioEcosystem, defaultEcosystem])

/-- With no young palms the young-palm rate is the (non-negative) net
reproduction. -/
lemma young_change_nonneg_at_zero (b : Bool) (t r m : ℝ) (hr : 0 ≤ r) (hm : 0 ≤ m) :
    0 ≤ young_palm_change (scenarioEcosystem b) t r m 0 := by
  unfold young_palm_change
  rw [young_palm_clearing_zero b t (m + 0) (by linarith)]
  simp only [zero_mul, zero_div, zero_add, add_zero, sub_zero]
  exact actual_reproduction_nonneg b m r hm hr

/-- With the clamped mean age at zero the mean-age rate is non-negative. -/
lemma age_change_nonneg_at_zero (b : Bool) (m y : ℝ) (hy : 0 ≤ y) :
    0 ≤ avg_age_change (scenarioEcosystem b) m y 0 := by
  unfold avg_age_change
  split_ifs with h
  · have hm : (0 : ℝ) < m := by linarith
    have hterm : 0 ≤ y / (scenarioEcosystem b).palm_maturation_time / m * (70 - 0) := by
      have hmt : (scenarioEcosystem b).palm_maturation_time = 70 := rfl
      rw [hmt, sub_zero]
      exact mul_nonneg (div_nonneg (div_nonneg hy (by norm_num)) hm.le) (by norm_num)
    linarith
  · exact le_rfl

/-- A differentiable function on `[0, T]` that starts non-negative and whose
derivative is non-negative wherever the function is non-positive stays
non-negative on all of `[0, T]`. -/
lemma nonneg_on_Icc_of_deriv (T : ℝ) (f g : ℝ → ℝ)
    (hf : ∀ t ∈ Icc (0 : ℝ) T, HasDerivAt f (g t) t)
    (h0 : 0 ≤ f 0)
    (hsign : ∀ t ∈ Icc (0 : ℝ) T, f t ≤ 0 → 0 ≤ g t) :
    ∀ t ∈ Icc (0 : ℝ) T, 0 ≤ f t := by
  intro t ht
  by_contra hneg
  push_neg at hneg
  obtain ⟨ht0, htT⟩ := ht
  have hcont : ContinuousOn f (Icc 0 T) := fun u hu =>
    (hf u hu).continuousAt.continuousWithinAt
  have hsub : Icc (0 : ℝ) t ⊆ Icc 0 T := Icc_subset_Icc le_rfl htT
  have hSclosed : IsClosed (Icc (0 : ℝ) t ∩ Set.preimage f (Ici 0)) :=
    (hcont.mono hsub).preimage_isClosed_of_isClosed isClosed_Icc isClosed_Ici
  have hS0 : (0 : ℝ) ∈ Icc (0 : ℝ) t ∩ Set.preimage f (Ici 0) := ⟨⟨le_rfl, ht0⟩, h0⟩
  have hSbdd : BddAbove (Icc (0 : ℝ) t ∩ Set.preimage f (Ici 0)) := ⟨t, fun u hu => hu.1.2⟩
  set s := sSup (Icc (0 : ℝ) t ∩ Set.preimage f (Ici 0)) with hs
  obtain ⟨⟨hs0, hst⟩, hsf⟩ := hSclosed.csSup_mem ⟨0, hS0⟩ hSbdd
  have hsf' : 0 ≤ f s := hsf
  have hslt : s < t := by
    rcases lt_or_eq_of_le hst with h | h
    · exact h
    · exact absurd (h ▸ hsf') (not_le.2 hneg)
  have hneg_on : ∀ u, s < u → u ≤ t → f u < 0 := by
    intro u hsu hut
    by_contra hfu
    push_neg at hfu
    have hu_mem : u ∈ Icc (0 : ℝ) t ∩ Set.preimage f (Ici 0) :=
      ⟨⟨le_trans hs0 hsu.le, hut⟩, hfu⟩
    exact absurd (le_csSup hSbdd hu_mem) (not_le.2 hsu)
  have hmono : MonotoneOn f (Icc s t) := by
    refine monotoneOn_of_deriv_nonneg (convex_Icc s t)
      (hcont.mono (Icc_subset_Icc hs0 htT)) ?_ ?_
    · intro u hu
      rw [interior_Icc] at hu
      exact (hf u ⟨le_trans hs0 hu.1.le,
        le_trans hu.2.le htT⟩).differentiableAt.differentiableWithinAt
    · intro u hu
      rw [interior_Icc] at hu
      have huI : u ∈ Icc (0 : ℝ) T := ⟨le_trans hs0 hu.1.le, le_trans hu.2.le htT⟩
      rw [(hf u huI).deriv]
      exact hsign u huI (hneg_on u hu.1 hu.2.le).le
  have hle : f s ≤ f t := hmono ⟨le_rfl, hslt.le⟩ ⟨hslt.le, le_rfl⟩ hslt.le
  linarith

/-- Claim C2: every trajectory of the dynamics (modelled, following the
spec, as an exact solution of `ecosystem_dynamics` since the numerical
integrator `scipy.integrate.odeint` is external to the repository) that
starts from a componentwise non-negative initial state — as
`run_simulation`'s initial state `(2, 9e6, 6e6, 150)` is — keeps all four
components non-negative over the whole horizon; and `ecosystem_dynamics`
clamps the state componentwise to non-negative before every rate
evaluation, so no negative value ever enters a rate formula. -/
theorem trajectory_nonneg_and_clamped (b : Bool) (T : ℝ) (R M Y A : ℝ → ℝ)
    (htraj : IsTrajectory (scenarioEcosystem b) T R M Y A)
    (hR0 : 0 ≤ R 0) (hM0 : 0 ≤ M 0) (hY0 : 0 ≤ Y 0) (hA0 : 0 ≤ A 0) :
    (∀ t ∈ Icc (0 : ℝ) T, 0 ≤ R t ∧ 0 ≤ M t ∧ 0 ≤ Y t ∧ 0 ≤ A t) ∧
    (∀ (c : RapaNuiEcosystem) (st : EcoState) (t : ℝ),
      ecosystem_dynamics c st t = ecosystem_dynamics c (clampState st) t ∧
      0 ≤ (clampState st).rats ∧ 0 ≤ (clampState st).mature_palms ∧
      0 ≤ (clampState st).young_palms ∧ 0 ≤ (clampState st).mature_avg_age) := by
  constructor
  · have hRn : ∀ t ∈ Icc (0 : ℝ) T, 0 ≤ R t := by
      refine nonneg_on_Icc_of_deriv T R _ (fun t ht => (htraj t ht).1) hR0 ?_
      intro t ht hft
      simp only [ecosystem_dynamics, clampState]
      rw [max_eq_right hft, rat_growth_at_zero b t _ ht.1]
    have hMn : ∀ t ∈ Icc (0 : ℝ) T, 0 ≤ M t := by
      refine nonneg_on_Icc_of_deriv T M _ (fun t ht => (htraj t ht).2.1) hM0 ?_
      intro t ht hft
      simp only [ecosystem_dynamics, clampState]
      rw [max_eq_right hft]
      exact mature_change_nonneg_at_zero b t _ _ (le_max_right _ _)
    have hYn : ∀ t ∈ Icc (0 : ℝ) T, 0 ≤ Y t := by
      refine nonneg_on_Icc_of_deriv T Y _ (fun t ht => (htraj t ht).2.2.1) hY0 ?_
      intro t ht hft
      simp only [ecosystem_dynamics, clampState]
      rw [max_eq_right hft]
      exact young_change_nonneg_at_zero b t _ _ (le_max_right _ _) (le_max_right _ _)
    have hAn : ∀ t ∈ Icc (0 : ℝ) T, 0 ≤ A t := by
      refine nonneg_on_Icc_of_deriv T A _ (fun t ht => (htraj t ht).2.2.2) hA0 ?_
      intro t ht hft
      simp only [ecosystem_dynamics, clampState]
      rw [max_eq_right hft]
      exact age_change_nonneg_at_zero b _ _ (le_max_right _ _)
    exact fun t ht => ⟨hRn t ht, hMn t ht, hYn t ht, hAn t ht⟩
  · intro c st t
    have hidem : clampState (clampState st) = clampState st := by
      simp [clampState, max_assoc]
    refine ⟨?_, le_max_right _ _, le_max_right _ _, le_max_right _ _, le_max_right _ _⟩
    simp only [ecosystem_dynamics, hidem]

/-- The all-zero state is an equilibrium of the dynamics for `t ≥ 0`. -/
lemma dynamics_zero_state (b : Bool) (t : ℝ) (ht : 0 ≤ t) :
    ecosystem_dynamics (scenarioEcosystem b) ⟨0, 0, 0, 0⟩ t = ⟨0, 0, 0, 0⟩ := by
  have hm0 : mature_palm_change (scenarioEcosystem b) t 0 0 0 = 0 := by
    unfold mature_palm_change
    rw [mature_palm_clearing_zero b t (0 + 0) (by norm_num)]
    simp
  have hy0 : young_palm_change (scenarioEcosystem b) t 0 0 0 = 0 := by
    unfold young_palm_change
    rw [young_palm_clearing_zero b t (0 + 0) (by norm_num)]
    have har : actual_reproduction (scenarioEcosystem b) 0 0 = 0 := by
      unfold actual_reproduction refugia_survival accessible_survival
        refugia_reproduction accessible_reproduction
      ring
    rw [har]
    simp
  have ha0 : avg_age_change (scenarioEcosystem b) 0 0 0 = 0 := by
    unfold avg_age_change
    rw [if_neg (by norm_num : ¬ ((0 : ℝ) > 100))]
  simp only [ecosystem_dynamics, clampState, max_self]
  rw [rat_growth_at_zero b t 0 ht, hm0, hy0, ha0]

/-- Witness for C2: the constant-zero functions form an exact trajectory on
`[0, 1]` with non-negative initial state, and the clamping identity holds at
a concrete negative state. -/
theorem trajectory_nonneg_and_clamped_witness :
    0 ≤ (fun _ : ℝ => (0 : ℝ)) 1 ∧
    ecosystem_dynamics (scenarioEcosystem true) ⟨-1, -2, -3, -4⟩ 5 =
      ecosystem_dynamics (scenarioEcosystem true) (clampState ⟨-1, -2, -3, -4⟩) 5 := by
  have htr : IsTrajectory (scenarioEcosystem true) 1
      (fun _ => 0) (fun _ => 0) (fun _ => 0) (fun _ => 0) := by
    intro t ht
    have hz := dynamics_zero_state true t ht.1
    refine ⟨?_, ?_, ?_, ?_⟩
    · show HasDerivAt (fun _ : ℝ => (0 : ℝ))
        ((ecosystem_dynamics (scenarioEcosystem true) ⟨0, 0, 0, 0⟩ t).rats) t
      rw [hz]
      exact hasDerivAt_const _ _
    · show HasDerivAt (fun _ : ℝ => (0 : ℝ))
        ((ecosystem_dynamics (scenarioEcosystem true) ⟨0, 0, 0, 0⟩ t).mature_palms) t
      rw [hz]
      exact hasDerivAt_const _ _
    · show HasDerivAt (fun _ : ℝ => (0 : ℝ))
        ((ecosystem_dynamics (scenarioEcosystem true) ⟨0, 0, 0, 0⟩ t).young_palms) t
      rw [hz]
      exact hasDerivAt_const _ _
    · show HasDerivAt (fun _ : ℝ => (0 : ℝ))
        ((ecosystem_dynamics (scenarioEcosystem true) ⟨0, 0, 0, 0⟩ t).mature_avg_age) t
      rw [hz]
      exact hasDerivAt_const _ _
  have h := trajectory_nonneg_and_clamped true 1
    (fun _ => 0) (fun _ => 0) (fun _ => 0) (fun _ => 0) htr le_rfl le_rfl le_rfl le_rfl
  exact ⟨(h.1 1 ⟨by norm_num, le_rfl⟩).1,
    (h.2 (scenarioEcosystem true) ⟨-1, -2, -3, -4⟩ 5).1⟩
